import Mathlib

/-!
Shallow embedding of the Campaign-Manager backend (Python/Flask) in Lean 4,
covering the validation engine, the campaign lifecycle service and the
publishing translator, together with proofs about the claims of the
specification.

Conventions of the embedding:
* Python `None`-able values are `Option`; Python truthiness of strings,
  integers, rationals and lists is made explicit by the `pyTruthy*` helpers
  (`None`, `''`, `0`, `0.0` and `[]` are falsy).
* Dates are integers under an order-preserving encoding (only comparisons
  between dates occur in the code).
* Python floats carry only equality/truthiness in the modelled code, so they
  are embedded as rationals.
* Functions that `raise` are embedded as `Except String`.
-/

/-- A single-quote character, used in the duplicate-keyword error message. -/
def singleQuote : String := String.singleton (Char.ofNat 39)

/-- Python string slicing `s[:n]` (character-wise, like Python's code-point
slicing). -/
def pyTake (n : Nat) (s : String) : String := String.mk (s.data.take n)

/-- Python `str.strip()`: drop leading and trailing whitespace. -/
def pyStrip (s : String) : String :=
  String.mk (((s.data.dropWhile Char.isWhitespace).reverse.dropWhile Char.isWhitespace).reverse)

/-- Python `str.lower()` (code-point-wise lower-casing). -/
def pyLower (s : String) : String := String.mk (s.data.map Char.toLower)

/-- Python truthiness of an optional string (`None` and `''` are falsy). -/
def pyTruthyStr : Option String → Bool
  | none => false
  | some s => decide (s ≠ "")

/-- Python truthiness of an optional integer (`None` and `0` are falsy). -/
def pyTruthyInt : Option Int → Bool
  | none => false
  | some n => decide (n ≠ 0)

/-- Python truthiness of an optional float (`None` and `0.0` are falsy). -/
def pyTruthyRat : Option Rat → Bool
  | none => false
  | some q => decide (q ≠ 0)

/-- Python truthiness of an optional list (`None` and `[]` are falsy). -/
def pyTruthyList : Option (List String) → Bool
  | none => false
  | some l => decide (l ≠ [])

/-- Python `x or d` for an optional string `x` and a string default. -/
def pyOrStr (o : Option String) (d : String) : String :=
  match o with
  | none => d
  | some s => if s = "" then d else s

/-- Python `x or d` for an optional list `x` and a list default. -/
def pyOrList (o : Option (List String)) (d : List String) : List String :=
  match o with
  | none => d
  | some l => if l = [] then d else l

/-- The `images` JSON column: three optional named URLs
(`app/models/campaign.py`, `ImageAssetsSchema`). -/
structure ImageAssets where
  landscape_url : Option String
  square_url : Option String
  logo_url : Option String
deriving DecidableEq

/-- The empty image dictionary used for `campaign.images or {}`. -/
def emptyImages : ImageAssets := { landscape_url := none, square_url := none, logo_url := none }

/-- The `Campaign` record (`app/models/campaign.py`).  Nullable columns are
`Option`; `name`, `objective`, `campaign_type`, `daily_budget`, `status`,
`id` and `created_at` are non-nullable columns. -/
structure Campaign where
  id : String
  owner_id : Option String
  name : String
  objective : String
  campaign_type : String
  daily_budget : Int
  start_date : Option Int
  end_date : Option Int
  bidding_strategy : Option String
  target_cpa : Option Int
  target_roas : Option Rat
  status : String
  google_campaign_id : Option String
  google_ad_group_id : Option String
  google_ad_id : Option String
  ad_group_name : Option String
  ad_headline : Option String
  ad_description : Option String
  asset_url : Option String
  final_url : Option String
  headlines : Option (List String)
  long_headline : Option String
  descriptions : Option (List String)
  business_name : Option String
  images : Option ImageAssets
  keywords : Option (List String)
  video_url : Option String
  merchant_center_id : Option String
  created_at : Int
deriving DecidableEq

/-! ## Type Requirement Catalog (`app/schemas/campaign_schema.py`) -/

/-- A `headlines`/`descriptions` entry of `CAMPAIGN_TYPE_REQUIREMENTS`:
`{min, max, max_length}`. -/
structure CountReq where
  min : Nat
  max : Nat
  max_length : Nat
deriving DecidableEq

/-- A `{required, max_length}` entry (`long_headline` / `business_name`). -/
structure FlagLenReq where
  required : Bool
  max_length : Nat
deriving DecidableEq

/-- The `keywords` entry: `{required, unique}`. -/
structure KeywordReq where
  required : Bool
  unique : Bool
deriving DecidableEq

/-- One value of the `CAMPAIGN_TYPE_REQUIREMENTS` dict.  A `none` (or `false`)
field models an absent key of the Python dict. -/
structure TypeRequirements where
  headlines : Option CountReq
  long_headline : Option FlagLenReq
  descriptions : Option CountReq
  short_description_required : Bool
  short_description_max_length : Option Nat
  business_name : Option FlagLenReq
  images_required : Option Bool
  final_url_required : Option Bool
  keywords : Option KeywordReq
  video_url_required : Option Bool
  merchant_center_id_required : Option Bool
  api_creation_supported : Option Bool
deriving DecidableEq

/-- The empty requirement dict, the default of
`CAMPAIGN_TYPE_REQUIREMENTS.get(campaign_type, {})`. -/
def emptyRequirements : TypeRequirements :=
  { headlines := none, long_headline := none, descriptions := none,
    short_description_required := false, short_description_max_length := none,
    business_name := none, images_required := none, final_url_required := none,
    keywords := none, video_url_required := none,
    merchant_center_id_required := none, api_creation_supported := none }

/-- `CAMPAIGN_TYPE_REQUIREMENTS` (`app/schemas/campaign_schema.py`, lines
23-65), with the `.get(campaign_type, {})` default folded in. -/
def CAMPAIGN_TYPE_REQUIREMENTS : String → TypeRequirements
  | "DEMAND_GEN" =>
    { emptyRequirements with
      headlines := some { min := 1, max := 5, max_length := 40 },
      descriptions := some { min := 1, max := 5, max_length := 90 },
      business_name := some { required := true, max_length := 25 },
      images_required := some true,
      final_url_required := some true }
  | "PERFORMANCE_MAX" =>
    { emptyRequirements with
      headlines := some { min := 3, max := 15, max_length := 30 },
      long_headline := some { required := true, max_length := 90 },
      descriptions := some { min := 2, max := 5, max_length := 90 },
      short_description_required := true,
      short_description_max_length := some 60,
      business_name := some { required := true, max_length := 25 },
      images_required := some true,
      final_url_required := some true }
  | "SEARCH" =>
    { emptyRequirements with
      headlines := some { min := 3, max := 15, max_length := 30 },
      descriptions := some { min := 2, max := 4, max_length := 90 },
      keywords := some { required := true, unique := true },
      final_url_required := some true }
  | "DISPLAY" =>
    { emptyRequirements with
      headlines := some { min := 1, max := 5, max_length := 30 },
      long_headline := some { required := true, max_length := 90 },
      descriptions := some { min := 1, max := 5, max_length := 90 },
      business_name := some { required := true, max_length := 25 },
      images_required := some true,
      final_url_required := some true }
  | "VIDEO" =>
    { emptyRequirements with
      video_url_required := some true,
      headlines := some { min := 0, max := 5, max_length := 30 },
      descriptions := some { min := 0, max := 5, max_length := 90 },
      api_creation_supported := some false }
  | "SHOPPING" =>
    { emptyRequirements with
      merchant_center_id_required := some true }
  | _ => emptyRequirements

/-- `ALL_BIDDING_STRATEGIES` (`app/schemas/campaign_schema.py`, lines 17-20). -/
def ALL_BIDDING_STRATEGIES : List String :=
  ["maximize_conversions", "maximize_conversion_value", "maximize_clicks",
   "target_cpa", "target_roas", "target_cpc", "manual_cpc", "manual_cpm", "target_cpm"]

/-- `BIDDING_STRATEGIES_BY_TYPE` (`app/schemas/campaign_schema.py`, lines
8-15), with the `.get(campaign_type, [])` default folded in. -/
def BIDDING_STRATEGIES_BY_TYPE : String → List String
  | "DEMAND_GEN" => ["maximize_conversions", "target_cpa", "maximize_clicks", "target_cpc"]
  | "PERFORMANCE_MAX" => ["maximize_conversions", "maximize_conversion_value"]
  | "SEARCH" => ["manual_cpc", "maximize_clicks", "target_cpa", "maximize_conversions"]
  | "DISPLAY" => ["manual_cpc", "manual_cpm", "maximize_conversions", "target_cpa"]
  | "VIDEO" => ["maximize_conversions", "target_cpa", "target_cpm"]
  | "SHOPPING" => ["maximize_clicks", "target_roas", "manual_cpc"]
  | _ => []

/-! ## The parallel limits table (`app/utils/google_ads_validators.py`) -/

/-- One value of the `GOOGLE_ADS_LIMITS` dict.  A `none` field models an
absent key of the Python dict. -/
structure TypeLimits where
  headline : Option Nat
  long_headline : Option Nat
  description : Option Nat
  short_description : Option Nat
  min_headlines : Option Nat
  max_headlines : Option Nat
  min_descriptions : Option Nat
  max_descriptions : Option Nat
  business_name : Option Nat
  api_creation_supported : Option Bool
deriving DecidableEq

/-- The `DEMAND_GEN` entry of `GOOGLE_ADS_LIMITS`. -/
def demandGenLimits : TypeLimits :=
  { headline := some 40, long_headline := none, description := some 90,
    short_description := none, min_headlines := some 1, max_headlines := some 5,
    min_descriptions := some 1, max_descriptions := some 5,
    business_name := some 25, api_creation_supported := none }

/-- The `PERFORMANCE_MAX` entry of `GOOGLE_ADS_LIMITS`. -/
def performanceMaxLimits : TypeLimits :=
  { headline := some 30, long_headline := some 90, description := some 90,
    short_description := some 60, min_headlines := some 3, max_headlines := some 15,
    min_descriptions := some 2, max_descriptions := some 5,
    business_name := some 25, api_creation_supported := none }

/-- The `SEARCH` entry of `GOOGLE_ADS_LIMITS`. -/
def searchLimits : TypeLimits :=
  { headline := some 30, long_headline := none, description := some 90,
    short_description := none, min_headlines := some 3, max_headlines := some 15,
    min_descriptions := some 2, max_descriptions := some 4,
    business_name := none, api_creation_supported := none }

/-- The `DISPLAY` entry of `GOOGLE_ADS_LIMITS`. -/
def displayLimits : TypeLimits :=
  { headline := some 30, long_headline := some 90, description := some 90,
    short_description := none, min_headlines := some 1, max_headlines := some 5,
    min_descriptions := some 1, max_descriptions := some 5,
    business_name := some 25, api_creation_supported := none }

/-- The `VIDEO` entry of `GOOGLE_ADS_LIMITS`. -/
def videoLimits : TypeLimits :=
  { headline := some 30, long_headline := none, description := some 90,
    short_description := none, min_headlines := some 0, max_headlines := some 5,
    min_descriptions := some 0, max_descriptions := some 5,
    business_name := none, api_creation_supported := some false }

/-- The `SHOPPING` entry of `GOOGLE_ADS_LIMITS`. -/
def shoppingLimits : TypeLimits :=
  { headline := none, long_headline := none, description := none,
    short_description := none, min_headlines := some 0, max_headlines := some 0,
    min_descriptions := some 0, max_descriptions := some 0,
    business_name := none, api_creation_supported := none }

/-- `GOOGLE_ADS_LIMITS` (`app/utils/google_ads_validators.py`, lines 10-64);
`none` models an unknown campaign type (the dict has no such key). -/
def GOOGLE_ADS_LIMITS : String → Option TypeLimits
  | "DEMAND_GEN" => some demandGenLimits
  | "PERFORMANCE_MAX" => some performanceMaxLimits
  | "SEARCH" => some searchLimits
  | "DISPLAY" => some displayLimits
  | "VIDEO" => some videoLimits
  | "SHOPPING" => some shoppingLimits
  | _ => none

/-! ## Error message strings -/

/-- Schema pass: `'{t} campaigns cannot be created via the Google Ads API. ...'`. -/
def apiRestrictionMsg (t : String) : String :=
  t ++ " campaigns cannot be created via the Google Ads API. Please use Google Ads UI or Google Ads Scripts."

/-- The SEARCH-specific minimum-headlines message (used by both passes). -/
def searchMinHeadlinesMsg (t : String) (min : Nat) : String :=
  t ++ " campaigns require at least " ++ toString min ++ " headlines (Responsive Search Ads minimum requirement)"

/-- The generic minimum-headlines message (used by both passes). -/
def genericMinHeadlinesMsg (t : String) (min : Nat) : String :=
  t ++ " campaigns require at least " ++ toString min ++ " headline(s)"

/-- `'{t} campaigns allow at most {max} headlines'` (used by both passes). -/
def maxHeadlinesMsg (t : String) (max : Nat) : String :=
  t ++ " campaigns allow at most " ++ toString max ++ " headlines"

/-- `'Headline {i} exceeds {maxLen} characters'` (1-based index). -/
def headlineExceedsMsg (i : Nat) (maxLen : Nat) : String :=
  "Headline " ++ toString i ++ " exceeds " ++ toString maxLen ++ " characters"

/-- `'{t} campaigns require a long headline'`. -/
def longHeadlineRequiredMsg (t : String) : String :=
  t ++ " campaigns require a long headline"

/-- `'Long headline exceeds {maxLen} characters'`. -/
def longHeadlineExceedsMsg (maxLen : Nat) : String :=
  "Long headline exceeds " ++ toString maxLen ++ " characters"

/-- The SEARCH-specific minimum-descriptions message (used by both passes). -/
def searchMinDescriptionsMsg (t : String) (min : Nat) : String :=
  t ++ " campaigns require at least " ++ toString min ++ " descriptions (Responsive Search Ads minimum requirement)"

/-- The generic minimum-descriptions message (used by both passes). -/
def genericMinDescriptionsMsg (t : String) (min : Nat) : String :=
  t ++ " campaigns require at least " ++ toString min ++ " description(s)"

/-- `'{t} campaigns allow at most {max} descriptions'` (used by both passes). -/
def maxDescriptionsMsg (t : String) (max : Nat) : String :=
  t ++ " campaigns allow at most " ++ toString max ++ " descriptions"

/-- `'Description {i} exceeds {maxLen} characters'` (1-based index). -/
def descriptionExceedsMsg (i : Nat) (maxLen : Nat) : String :=
  "Description " ++ toString i ++ " exceeds " ++ toString maxLen ++ " characters"

/-- Schema pass short-description message:
`'{t} requires at least one description of {shortMax} characters or fewer (short description requirement)'`. -/
def schemaShortDescriptionMsg (t : String) (shortMax : Nat) : String :=
  t ++ " requires at least one description of " ++ toString shortMax ++ " characters or fewer (short description requirement)"

/-- Dry-validate pass short-description message (`validate_pmax_short_description`). -/
def pmaxShortDescriptionMsg (shortMax : Nat) : String :=
  "Performance Max requires at least one description of " ++ toString shortMax ++ " characters or fewer (short description requirement)"

/-- `'{t} campaigns require a business name'`. -/
def businessNameRequiredMsg (t : String) : String :=
  t ++ " campaigns require a business name"

/-- `'Business name exceeds {maxLen} characters'`. -/
def businessNameExceedsMsg (maxLen : Nat) : String :=
  "Business name exceeds " ++ toString maxLen ++ " characters"

/-- `'{t} campaigns require at least one image'`. -/
def imagesRequiredMsg (t : String) : String :=
  t ++ " campaigns require at least one image"

/-- `'{t} campaigns require a final URL'`. -/
def finalUrlRequiredMsg (t : String) : String :=
  t ++ " campaigns require a final URL"

/-- `'{t} campaigns require keywords'`. -/
def keywordsRequiredMsg (t : String) : String :=
  t ++ " campaigns require keywords"

/-- `"Duplicate keyword detected: '<original text>'"` (both passes). -/
def duplicateKeywordMsg (kw : String) : String :=
  "Duplicate keyword detected: " ++ singleQuote ++ kw ++ singleQuote

/-- `'{t} campaigns require a video URL'`. -/
def videoUrlRequiredMsg (t : String) : String :=
  t ++ " campaigns require a video URL"

/-- `'{t} campaigns require a Merchant Center ID'`. -/
def merchantCenterRequiredMsg (t : String) : String :=
  t ++ " campaigns require a Merchant Center ID"

/-- `'Bidding strategy {bs} is not valid for {t} campaigns'`. -/
def invalidBiddingStrategyMsg (bs t : String) : String :=
  "Bidding strategy " ++ bs ++ " is not valid for " ++ t ++ " campaigns"

/-- Schema pass target-CPA-missing message. -/
def targetCpaRequiredMsg : String :=
  "Target CPA value is required for target_cpa bidding strategy"

/-- Schema pass target-ROAS-missing message. -/
def targetRoasRequiredMsg : String :=
  "Target ROAS value is required for target_roas bidding strategy"

/-- Dry-validate pass VIDEO restriction message (`check_video_campaign_restriction`). -/
def videoRestrictionMsg : String :=
  "VIDEO campaigns cannot be created via the Google Ads API. Please use Google Ads UI or Google Ads Scripts to create VIDEO campaigns."

/-! ## Schema-level pre-publish validation
(`validate_campaign_for_publish`, `app/schemas/campaign_schema.py`, lines
339-476).  The function is a sequence of per-rule blocks appending to one
`errors` list; each block is embedded as its own definition and the whole
function is their concatenation in source order. -/

/-- Per-headline length messages: one message per offending 1-based index. -/
def headlineLengthErrors (maxLen : Nat) (hs : List String) : List String :=
  hs.enum.filterMap (fun p => if maxLen < p.2.length then some (headlineExceedsMsg (p.1 + 1) maxLen) else none)

/-- Per-description length messages: one message per offending 1-based index. -/
def descriptionLengthErrors (maxLen : Nat) (ds : List String) : List String :=
  ds.enum.filterMap (fun p => if maxLen < p.2.length then some (descriptionExceedsMsg (p.1 + 1) maxLen) else none)

/-- VIDEO-restriction block: fires when the catalog has
`api_creation_supported is False`. -/
def schema_api_restriction_errors (c : Campaign) : List String :=
  if (CAMPAIGN_TYPE_REQUIREMENTS c.campaign_type).api_creation_supported = some false then
    [apiRestrictionMsg c.campaign_type]
  else []

/-- Headline cardinality/length block. -/
def schema_headline_errors (c : Campaign) : List String :=
  match (CAMPAIGN_TYPE_REQUIREMENTS c.campaign_type).headlines with
  | none => []
  | some req =>
    let hs := c.headlines.getD []
    (if hs.length < req.min then
       (if c.campaign_type = "SEARCH" then
          [searchMinHeadlinesMsg c.campaign_type req.min]
        else
          [genericMinHeadlinesMsg c.campaign_type req.min])
     else []) ++
    (if req.max < hs.length then [maxHeadlinesMsg c.campaign_type req.max] else []) ++
    headlineLengthErrors req.max_length hs

/-- Long-headline block (`required`/length checks, `elif` chained). -/
def schema_long_headline_errors (c : Campaign) : List String :=
  match (CAMPAIGN_TYPE_REQUIREMENTS c.campaign_type).long_headline with
  | none => []
  | some req =>
    if req.required && !(pyTruthyStr c.long_headline) then
      [longHeadlineRequiredMsg c.campaign_type]
    else if pyTruthyStr c.long_headline && decide (req.max_length < (c.long_headline.getD "").length) then
      [longHeadlineExceedsMsg req.max_length]
    else []

/-- Description cardinality/length block. -/
def schema_description_errors (c : Campaign) : List String :=
  match (CAMPAIGN_TYPE_REQUIREMENTS c.campaign_type).descriptions with
  | none => []
  | some req =>
    let ds := c.descriptions.getD []
    (if ds.length < req.min then
       (if c.campaign_type = "SEARCH" then
          [searchMinDescriptionsMsg c.campaign_type req.min]
        else
          [genericMinDescriptionsMsg c.campaign_type req.min])
     else []) ++
    (if req.max < ds.length then [maxDescriptionsMsg c.campaign_type req.max] else []) ++
    descriptionLengthErrors req.max_length ds

/-- Performance-Max short-description block: when descriptions exist, at
least one must be at most `short_description_max_length` (default 60). -/
def schema_short_description_errors (c : Campaign) : List String :=
  let req := CAMPAIGN_TYPE_REQUIREMENTS c.campaign_type
  if req.short_description_required then
    let ds := c.descriptions.getD []
    let shortMax := req.short_description_max_length.getD 60
    if ds.isEmpty then []
    else if ds.any (fun d => decide (d.length ≤ shortMax)) then []
    else [schemaShortDescriptionMsg c.campaign_type shortMax]
  else []

/-- Business-name block (`required`/length checks, `elif` chained). -/
def schema_business_name_errors (c : Campaign) : List String :=
  match (CAMPAIGN_TYPE_REQUIREMENTS c.campaign_type).business_name with
  | none => []
  | some req =>
    if req.required && !(pyTruthyStr c.business_name) then
      [businessNameRequiredMsg c.campaign_type]
    else if pyTruthyStr c.business_name && decide (req.max_length < (c.business_name.getD "").length) then
      [businessNameExceedsMsg req.max_length]
    else []

/-- Images block: at least one of the three named URLs must be present. -/
def schema_image_errors (c : Campaign) : List String :=
  match (CAMPAIGN_TYPE_REQUIREMENTS c.campaign_type).images_required with
  | some true =>
    let imgs := c.images.getD emptyImages
    if pyTruthyStr imgs.landscape_url || pyTruthyStr imgs.square_url || pyTruthyStr imgs.logo_url then []
    else [imagesRequiredMsg c.campaign_type]
  | _ => []

/-- Final-URL block. -/
def schema_final_url_errors (c : Campaign) : List String :=
  match (CAMPAIGN_TYPE_REQUIREMENTS c.campaign_type).final_url_required with
  | some true => if pyTruthyStr c.final_url then [] else [finalUrlRequiredMsg c.campaign_type]
  | _ => []

/-- Keyword normalization: `keyword.strip().lower()`. -/
def normalize_keyword (kw : String) : String := pyLower (pyStrip kw)

/-- The duplicate-keyword loop of the schema pass
(`campaign_schema.py`, lines 445-450): the normalized form of every scanned
keyword is added to `seen` (a set, so re-adding is a no-op, modelled by the
unconditional cons). -/
def schemaKeywordDupScan (seen : List String) : List String → List String
  | [] => []
  | k :: rest =>
    let n := normalize_keyword k
    if n ∈ seen then duplicateKeywordMsg k :: schemaKeywordDupScan (n :: seen) rest
    else schemaKeywordDupScan (n :: seen) rest

/-- Keywords block (SEARCH only in the catalog): required check, then the
uniqueness scan. -/
def schema_keyword_errors (c : Campaign) : List String :=
  match (CAMPAIGN_TYPE_REQUIREMENTS c.campaign_type).keywords with
  | none => []
  | some req =>
    let ks := c.keywords.getD []
    (if req.required && ks.isEmpty then [keywordsRequiredMsg c.campaign_type] else []) ++
    (if req.unique && !ks.isEmpty then schemaKeywordDupScan [] ks else [])

/-- Video-URL block (VIDEO only in the catalog). -/
def schema_video_url_errors (c : Campaign) : List String :=
  match (CAMPAIGN_TYPE_REQUIREMENTS c.campaign_type).video_url_required with
  | some true => if pyTruthyStr c.video_url then [] else [videoUrlRequiredMsg c.campaign_type]
  | _ => []

/-- Merchant-Center-ID block (SHOPPING only in the catalog). -/
def schema_merchant_center_errors (c : Campaign) : List String :=
  match (CAMPAIGN_TYPE_REQUIREMENTS c.campaign_type).merchant_center_id_required with
  | some true => if pyTruthyStr c.merchant_center_id then [] else [merchantCenterRequiredMsg c.campaign_type]
  | _ => []

/-- Bidding-strategy block: allowed-strategy membership plus target-CPA /
target-ROAS presence requirements. -/
def schema_bidding_errors (c : Campaign) : List String :=
  if pyTruthyStr c.bidding_strategy then
    let bs := c.bidding_strategy.getD ""
    (if bs ∈ BIDDING_STRATEGIES_BY_TYPE c.campaign_type then []
     else [invalidBiddingStrategyMsg bs c.campaign_type]) ++
    (if bs = "target_cpa" && !(pyTruthyInt c.target_cpa) then [targetCpaRequiredMsg] else []) ++
    (if bs = "target_roas" && !(pyTruthyRat c.target_roas) then [targetRoasRequiredMsg] else [])
  else []

/-- `validate_campaign_for_publish` (`app/schemas/campaign_schema.py`, lines
339-476): the blocks above in source order. -/
def validate_campaign_for_publish (c : Campaign) : List String :=
  schema_api_restriction_errors c ++
  schema_headline_errors c ++
  schema_long_headline_errors c ++
  schema_description_errors c ++
  schema_short_description_errors c ++
  schema_business_name_errors c ++
  schema_image_errors c ++
  schema_final_url_errors c ++
  schema_keyword_errors c ++
  schema_video_url_errors c ++
  schema_merchant_center_errors c ++
  schema_bidding_errors c

/-! ## Dry-validate pass (`app/utils/google_ads_validators.py`) -/

/-- `validate_search_rsa_requirements` (lines 99-156). -/
def validate_search_rsa_requirements (headlines descriptions : Option (List String)) : List String :=
  let minH := searchLimits.min_headlines.getD 0
  let maxH := searchLimits.max_headlines.getD 0
  let lenH := searchLimits.headline.getD 0
  let minD := searchLimits.min_descriptions.getD 0
  let maxD := searchLimits.max_descriptions.getD 0
  let lenD := searchLimits.description.getD 0
  let hs := headlines.getD []
  let ds := descriptions.getD []
  (if hs.length < minH then [searchMinHeadlinesMsg "SEARCH" minH] else []) ++
  (if maxH < hs.length then [maxHeadlinesMsg "SEARCH" maxH] else []) ++
  headlineLengthErrors lenH hs ++
  (if ds.length < minD then [searchMinDescriptionsMsg "SEARCH" minD] else []) ++
  (if maxD < ds.length then [maxDescriptionsMsg "SEARCH" maxD] else []) ++
  descriptionLengthErrors lenD ds

/-- `validate_pmax_short_description` (lines 159-186): empty or missing
description lists pass; otherwise at least one description must be at most
`GOOGLE_ADS_LIMITS['PERFORMANCE_MAX']['short_description']` characters. -/
def validate_pmax_short_description (descriptions : Option (List String)) : List String :=
  let ds := descriptions.getD []
  if ds.isEmpty then []
  else
    let shortMax := performanceMaxLimits.short_description.getD 0
    if ds.any (fun d => decide (d.length ≤ shortMax)) then []
    else [pmaxShortDescriptionMsg shortMax]

/-- The duplicate-keyword loop of `validate_keyword_uniqueness` (lines
205-216): the normalized form is added to `seen` only on first sight. -/
def validatorKeywordDupScan (seen : List String) : List String → List String
  | [] => []
  | k :: rest =>
    let n := normalize_keyword k
    if n ∈ seen then duplicateKeywordMsg k :: validatorKeywordDupScan seen rest
    else validatorKeywordDupScan (n :: seen) rest

/-- `validate_keyword_uniqueness` (lines 189-217). -/
def validate_keyword_uniqueness (keywords : Option (List String)) : List String :=
  let ks := keywords.getD []
  if ks.isEmpty then [] else validatorKeywordDupScan [] ks

/-- `check_video_campaign_restriction` (lines 220-238). -/
def check_video_campaign_restriction (campaign_type : String) : List String :=
  if campaign_type = "VIDEO" then [videoRestrictionMsg] else []

/-- `validate_headlines_for_type` (lines 241-282). -/
def validate_headlines_for_type (campaign_type : String) (headlines : Option (List String)) : List String :=
  match GOOGLE_ADS_LIMITS campaign_type with
  | none => []
  | some limits =>
    let hs := headlines.getD []
    let minH := limits.min_headlines.getD 0
    let maxH := limits.max_headlines.getD 0
    let maxLen := limits.headline.getD 30
    (if 0 < minH ∧ hs.length < minH then [genericMinHeadlinesMsg campaign_type minH] else []) ++
    (if 0 < maxH ∧ maxH < hs.length then [maxHeadlinesMsg campaign_type maxH] else []) ++
    headlineLengthErrors maxLen hs

/-- `validate_descriptions_for_type` (lines 285-326). -/
def validate_descriptions_for_type (campaign_type : String) (descriptions : Option (List String)) : List String :=
  match GOOGLE_ADS_LIMITS campaign_type with
  | none => []
  | some limits =>
    let ds := descriptions.getD []
    let minD := limits.min_descriptions.getD 0
    let maxD := limits.max_descriptions.getD 0
    let maxLen := limits.description.getD 90
    (if 0 < minD ∧ ds.length < minD then [genericMinDescriptionsMsg campaign_type minD] else []) ++
    (if 0 < maxD ∧ maxD < ds.length then [maxDescriptionsMsg campaign_type maxD] else []) ++
    descriptionLengthErrors maxLen ds

/-- Result of `validate_campaign_for_google_ads`: a `valid` flag plus the
error list. -/
structure ValidationResult where
  valid : Bool
  errors : List String
deriving DecidableEq

/-- `validate_campaign_for_google_ads` (lines 329-363). -/
def validate_campaign_for_google_ads (c : Campaign) : ValidationResult :=
  let errors :=
    check_video_campaign_restriction c.campaign_type ++
    (if c.campaign_type = "SEARCH" then
       validate_search_rsa_requirements c.headlines c.descriptions ++
       validate_keyword_uniqueness c.keywords
     else if c.campaign_type = "PERFORMANCE_MAX" then
       validate_headlines_for_type c.campaign_type c.headlines ++
       validate_descriptions_for_type c.campaign_type c.descriptions ++
       validate_pmax_short_description c.descriptions
     else
       validate_headlines_for_type c.campaign_type c.headlines ++
       validate_descriptions_for_type c.campaign_type c.descriptions)
  { valid := errors.isEmpty, errors := errors }

/-! ## Campaign lifecycle service (`app/services/campaign_service.py`) -/

/-- `"Campaign is already published"` (`campaign_service.py`, line 418). -/
def alreadyPublishedMsg : String := "Campaign is already published"

/-- `"Cannot delete a campaign that has been published to Google Ads"`. -/
def cannotDeleteMsg : String := "Cannot delete a campaign that has been published to Google Ads"

/-- `'Cannot update {field} for a published campaign'`. -/
def cannotUpdateMsg (field : String) : String :=
  "Cannot update " ++ field ++ " for a published campaign"

/-- The basic checks of `CampaignService.validate_for_publish`
(`campaign_service.py`, lines 398-415), in source order.  `today` is the
value of `date.today()` at evaluation time. -/
def basic_publish_errors (today : Int) (c : Campaign) : List String :=
  (if c.name = "" then ["Campaign name is required"] else []) ++
  (if c.objective = "" then ["Campaign objective is required"] else []) ++
  (if c.daily_budget ≤ 0 then ["Valid daily budget is required"] else []) ++
  (if c.start_date.isNone then ["Start date is required"] else []) ++
  (match c.start_date with
   | some sd => if sd < today then ["Start date cannot be in the past"] else []
   | none => []) ++
  (match c.end_date, c.start_date with
   | some ed, some sd => if ed < sd then ["End date must be after start date"] else []
   | _, _ => [])

namespace CampaignService

/-- `CampaignService.validate_for_publish` (`campaign_service.py`, lines
381-424): basic checks, then the already-published guard, then the
type-specific schema pass. -/
def validate_for_publish (today : Int) (c : Campaign) : List String :=
  basic_publish_errors today c ++
  (if c.status = "PUBLISHED" then [alreadyPublishedMsg] else []) ++
  validate_campaign_for_publish c

/-- `CampaignService.delete_campaign` (`campaign_service.py`, lines 334-379):
`none` models a campaign id that resolves to no record (returns `False`);
the guard is Python truthiness of `campaign.google_campaign_id`. -/
def delete_campaign (campaign : Option Campaign) : Except String Bool :=
  match campaign with
  | none => .ok false
  | some c =>
    if pyTruthyStr c.google_campaign_id then .error cannotDeleteMsg
    else .ok true

end CampaignService

/-- An update patch (the `data` dict of `CampaignService.update_campaign`).
An outer `some` means the key is present in the dict; keys outside the
allow-list that a caller could still send (`status`, the three Google
linkage ids, `id`, `created_at`) are modelled alongside the allow-listed
ones.  Date strings are modelled already parsed. -/
structure UpdateData where
  name : Option String
  objective : Option String
  campaign_type : Option String
  daily_budget : Option Int
  start_date : Option (Option Int)
  end_date : Option (Option Int)
  ad_group_name : Option (Option String)
  ad_headline : Option (Option String)
  ad_description : Option (Option String)
  asset_url : Option (Option String)
  final_url : Option (Option String)
  bidding_strategy : Option (Option String)
  target_cpa : Option (Option Int)
  target_roas : Option (Option Rat)
  headlines : Option (Option (List String))
  long_headline : Option (Option String)
  descriptions : Option (Option (List String))
  business_name : Option (Option String)
  images : Option (Option ImageAssets)
  keywords : Option (Option (List String))
  video_url : Option (Option String)
  merchant_center_id : Option (Option String)
  status : Option String
  google_campaign_id : Option (Option String)
  google_ad_group_id : Option (Option String)
  google_ad_id : Option (Option String)
  id : Option String
  created_at : Option Int
deriving DecidableEq

/-- The patch with no keys present. -/
def emptyUpdate : UpdateData :=
  { name := none, objective := none, campaign_type := none, daily_budget := none,
    start_date := none, end_date := none, ad_group_name := none, ad_headline := none,
    ad_description := none, asset_url := none, final_url := none,
    bidding_strategy := none, target_cpa := none, target_roas := none,
    headlines := none, long_headline := none, descriptions := none,
    business_name := none, images := none, keywords := none, video_url := none,
    merchant_center_id := none, status := none, google_campaign_id := none,
    google_ad_group_id := none, google_ad_id := none, id := none, created_at := none }

/-- Whether the patch contains one of the `restricted_fields`
`['objective', 'campaign_type', 'start_date']` (`campaign_service.py`,
line 234). -/
def restricted_field_present (d : UpdateData) : Bool :=
  d.objective.isSome || d.campaign_type.isSome || d.start_date.isSome

/-- The first restricted field present, in the source's iteration order
(the field named by the raised `ValueError`). -/
def first_restricted_field (d : UpdateData) : String :=
  if d.objective.isSome then "objective"
  else if d.campaign_type.isSome then "campaign_type"
  else "start_date"

/-- The `for field in allowed_fields: if field in data: setattr(...)` loop of
`CampaignService.update_campaign` (`campaign_service.py`, lines 246-263):
exactly the allow-listed fields are copied from the patch when present. -/
def apply_allowed_fields (c : Campaign) (d : UpdateData) : Campaign :=
  { c with
    name := d.name.getD c.name,
    objective := d.objective.getD c.objective,
    campaign_type := d.campaign_type.getD c.campaign_type,
    daily_budget := d.daily_budget.getD c.daily_budget,
    start_date := d.start_date.getD c.start_date,
    end_date := d.end_date.getD c.end_date,
    ad_group_name := d.ad_group_name.getD c.ad_group_name,
    ad_headline := d.ad_headline.getD c.ad_headline,
    ad_description := d.ad_description.getD c.ad_description,
    asset_url := d.asset_url.getD c.asset_url,
    final_url := d.final_url.getD c.final_url,
    bidding_strategy := d.bidding_strategy.getD c.bidding_strategy,
    target_cpa := d.target_cpa.getD c.target_cpa,
    target_roas := d.target_roas.getD c.target_roas,
    headlines := d.headlines.getD c.headlines,
    long_headline := d.long_headline.getD c.long_headline,
    descriptions := d.descriptions.getD c.descriptions,
    business_name := d.business_name.getD c.business_name,
    images := d.images.getD c.images,
    keywords := d.keywords.getD c.keywords,
    video_url := d.video_url.getD c.video_url,
    merchant_center_id := d.merchant_center_id.getD c.merchant_center_id }

namespace CampaignService

/-- `CampaignService.update_campaign` (`campaign_service.py`, lines 206-278):
`none` models a campaign id resolving to no record; on a `PUBLISHED`
campaign a patch containing a restricted key raises before any field is
applied; otherwise the allow-listed fields are applied. -/
def update_campaign (campaign : Option Campaign) (data : UpdateData) : Except String (Option Campaign) :=
  match campaign with
  | none => .ok none
  | some c =>
    if c.status = "PUBLISHED" ∧ restricted_field_present data = true then
      .error (cannotUpdateMsg (first_restricted_field data))
    else
      .ok (some (apply_allowed_fields c data))

end CampaignService

/-! ## Publishing translator (`app/services/google_ads_service.py`) -/

/-- `HEADLINE_MAX_LENGTH` (`google_ads_service.py`, line 14). -/
def HEADLINE_MAX_LENGTH : Nat := 30

/-- `LONG_HEADLINE_MAX_LENGTH` (line 15). -/
def LONG_HEADLINE_MAX_LENGTH : Nat := 90

/-- `DESCRIPTION_MAX_LENGTH` (line 16). -/
def DESCRIPTION_MAX_LENGTH : Nat := 90

/-- `BUSINESS_NAME_MAX_LENGTH` (line 17). -/
def BUSINESS_NAME_MAX_LENGTH : Nat := 25

/-- `DEFAULT_BUSINESS_NAME` (line 21). -/
def DEFAULT_BUSINESS_NAME : String := "Campaign Manager"

/-- The bidding-strategy sub-structure set on the campaign proto by
`_set_bidding_strategy`: one constructor per `oneof` branch, carrying the
numeric fields the code writes. -/
inductive BiddingEncoding where
  | maximize_conversions (target_cpa_micros : Int)
  | maximize_conversion_value (target_roas : Rat)
  | target_spend (target_spend_micros : Int)
  | target_cpa (target_cpa_micros : Int)
  | target_roas (target_roas : Rat)
  | manual_cpc (enhanced_cpc_enabled : Bool)
  | manual_cpm
  | target_cpm (target_count : Int) (time_unit : String)
deriving DecidableEq

/-- The per-type `defaults` dict of `_set_bidding_strategy` (lines 350-358),
with the `.get(campaign_type, 'manual_cpc')` default folded in. -/
def default_bidding_strategy : String → String
  | "DEMAND_GEN" => "maximize_conversions"
  | "PERFORMANCE_MAX" => "maximize_conversions"
  | "SEARCH" => "manual_cpc"
  | "DISPLAY" => "manual_cpc"
  | "VIDEO" => "target_cpm"
  | "SHOPPING" => "maximize_clicks"
  | _ => "manual_cpc"

/-- `_set_bidding_strategy` (`google_ads_service.py`, lines 320-402): the
per-type default when no strategy is given (`if not bidding_strategy`,
Python truthiness), the nine explicit branches and the `else` fallback. -/
def set_bidding_strategy (campaign_type : String) (bidding_strategy : Option String)
    (target_cpa : Option Int) (target_roas : Option Rat) : BiddingEncoding :=
  let strategy :=
    if pyTruthyStr bidding_strategy then bidding_strategy.getD ""
    else default_bidding_strategy campaign_type
  if strategy = "maximize_conversions" then .maximize_conversions 0
  else if strategy = "maximize_conversion_value" then .maximize_conversion_value 0
  else if strategy = "maximize_clicks" then .target_spend 0
  else if strategy = "target_cpa" then
    .target_cpa (if pyTruthyInt target_cpa then target_cpa.getD 0 else 1000000)
  else if strategy = "target_roas" then
    .target_roas (if pyTruthyRat target_roas then target_roas.getD 0 else 1)
  else if strategy = "target_cpc" ∨ strategy = "manual_cpc" then .manual_cpc false
  else if strategy = "manual_cpm" then .manual_cpm
  else if strategy = "target_cpm" then .target_cpm 1 "WEEKLY"
  else .manual_cpc false

/-- The responsive search ad built by `_create_responsive_search_ad`. -/
structure ResponsiveSearchAd where
  headlines : List String
  descriptions : List String
  path1 : Option String
  path2 : Option String
  final_urls : List String
deriving DecidableEq

/-- `'Responsive Search Ads require at least 3 headlines. Only {n} provided.'` -/
def rsaHeadlinesErrorMsg (n : Nat) : String :=
  "Responsive Search Ads require at least 3 headlines. Only " ++ toString n ++ " provided."

/-- `'Responsive Search Ads require at least 2 descriptions. Only {n} provided.'` -/
def rsaDescriptionsErrorMsg (n : Nat) : String :=
  "Responsive Search Ads require at least 2 descriptions. Only " ++ toString n ++ " provided."

/-- `_create_responsive_search_ad` (`google_ads_service.py`, lines 798-871):
the minimum checks raise before the mutate call that creates the ad; on
success the ad carries at most 15 headlines / 4 descriptions, each sliced
to its maximum length. -/
def create_responsive_search_ad (headlines descriptions : List String) (final_url : String)
    (path1 path2 : Option String) : Except String ResponsiveSearchAd :=
  if headlines.length < 3 then
    .error (rsaHeadlinesErrorMsg headlines.length)
  else if descriptions.length < 2 then
    .error (rsaDescriptionsErrorMsg descriptions.length)
  else
    .ok { headlines := (headlines.take 15).map (pyTake HEADLINE_MAX_LENGTH),
          descriptions := (descriptions.take 4).map (pyTake DESCRIPTION_MAX_LENGTH),
          path1 := if pyTruthyStr path1 then some (pyTake 15 (path1.getD "")) else none,
          path2 := if pyTruthyStr path2 then some (pyTake 15 (path2.getD "")) else none,
          final_urls := [final_url] }

/-- `'Check out {name}'`, the fallback ad description. -/
def checkOutMsg (name : String) : String := "Check out " ++ name

/-- The `SEARCH` branch of `_create_ad_by_type` (`google_ads_service.py`,
lines 665-671): the argument fallbacks (`or`-chains) feeding
`_create_responsive_search_ad`; `path1`/`path2` keep their `None` defaults. -/
def create_ad_by_type_search (c : Campaign) : Except String ResponsiveSearchAd :=
  create_responsive_search_ad
    (pyOrList c.headlines [pyOrStr c.ad_headline c.name])
    (pyOrList c.descriptions [pyOrStr c.ad_description (checkOutMsg c.name)])
    (pyOrStr c.final_url "https://example.com")
    none none

/-- The headline placeholder `'Discover More {len(headlines) + 1}'` appended
by the padding loop of `_create_text_assets_for_pmax`. -/
def discoverMorePlaceholder (n : Nat) : String := "Discover More " ++ toString n

/-- The description placeholder appended by the padding loop. -/
def pmaxDescriptionPlaceholder : String := "Visit our website for more information."

/-- The `while len(headlines) < 3: headlines.append(...)` loop of
`_create_text_assets_for_pmax` (lines 533-534), unrolled: each appended
placeholder is numbered with the length the list had plus one. -/
def pad_headlines_to_min (hs : List String) : List String :=
  hs ++ (List.range (3 - hs.length)).map (fun k => discoverMorePlaceholder (hs.length + k + 1))

/-- The `while len(descriptions) < 2: descriptions.append(...)` loop
(lines 553-554), unrolled. -/
def pad_descriptions_to_min (ds : List String) : List String :=
  ds ++ (List.range (2 - ds.length)).map (fun _ => pmaxDescriptionPlaceholder)

/-- The text assets created by `_create_text_assets_for_pmax`. -/
structure PmaxTextAssets where
  headlines : List String
  long_headline : String
  descriptions : List String
  business_name : String
deriving DecidableEq

/-- `_create_text_assets_for_pmax` (`google_ads_service.py`, lines 517-584).
Returns the created asset texts together with the campaign record after the
call: `headlines = campaign.headlines or [...]` makes the working list an
alias of the record's own list whenever `campaign.headlines` is a non-empty
list, so the padding loop's `append` writes through to the record (and
likewise for descriptions); when the field is `None` or `[]` a fresh list is
built and the record is untouched. -/
def create_text_assets_for_pmax (c : Campaign) : PmaxTextAssets × Campaign :=
  let hs := pad_headlines_to_min (pyOrList c.headlines [pyOrStr c.ad_headline c.name])
  let ds := pad_descriptions_to_min (pyOrList c.descriptions [pyOrStr c.ad_description (checkOutMsg c.name)])
  let lh := pyOrStr c.long_headline (hs.headD c.name)
  let assets : PmaxTextAssets :=
    { headlines := (hs.take 5).map (pyTake HEADLINE_MAX_LENGTH),
      long_headline := pyTake LONG_HEADLINE_MAX_LENGTH lh,
      descriptions := (ds.take 5).map (pyTake DESCRIPTION_MAX_LENGTH),
      business_name := pyTake BUSINESS_NAME_MAX_LENGTH (pyOrStr c.business_name DEFAULT_BUSINESS_NAME) }
  let c' : Campaign :=
    { c with
      headlines := if pyTruthyList c.headlines then some hs else c.headlines,
      descriptions := if pyTruthyList c.descriptions then some ds else c.descriptions }
  (assets, c')

/-- The effect of `publish_campaign` (`google_ads_service.py`, lines 93-198)
on the campaign record it is given.  The `PERFORMANCE_MAX` branch reaches
`_create_text_assets_for_pmax`, whose list aliasing is the only place in the
translator that writes to the record; every other branch passes the record's
fields by value (slices and fresh lists), and the `VIDEO` branch raises
before any step. -/
def publish_campaign_record_effect (c : Campaign) : Campaign :=
  if c.campaign_type = "PERFORMANCE_MAX" then (create_text_assets_for_pmax c).2 else c

/-! ## Specification-side characterisations and shared lemmas -/

/-- Spec-side characterisation of duplicate-keyword detection, written from
the specification text: walking the list, a keyword is flagged (citing its
original text) exactly when its trimmed, lower-cased form equals that of
some earlier keyword. -/
def dup_spec_go (earlier : List String) : List String → List String
  | [] => []
  | k :: rest =>
    (if normalize_keyword k ∈ earlier.map normalize_keyword then [duplicateKeywordMsg k] else []) ++
    dup_spec_go (earlier ++ [k]) rest

/-- One duplicate error per second-or-later occurrence of a normalized
keyword value, citing the original text; first occurrences are never
flagged. -/
def duplicate_keyword_spec (ks : List String) : List String := dup_spec_go [] ks

theorem schemaKeywordDupScan_eq_dup_spec_go (ks : List String) :
    ∀ (earlier seen : List String),
      (∀ x, x ∈ seen ↔ x ∈ earlier.map normalize_keyword) →
      schemaKeywordDupScan seen ks = dup_spec_go earlier ks := by
  induction ks with
  | nil => intro earlier seen _; rfl
  | cons k rest ih =>
    intro earlier seen h
    have hmem := h (normalize_keyword k)
    have hnext : ∀ x, x ∈ normalize_keyword k :: seen ↔ x ∈ (earlier ++ [k]).map normalize_keyword := by
      intro x
      simp only [List.mem_cons, List.map_append, List.map_cons, List.map_nil,
        List.mem_append, List.mem_singleton, h x]
      tauto
    by_cases hk : normalize_keyword k ∈ seen
    · simp only [schemaKeywordDupScan, dup_spec_go, if_pos hk, if_pos (hmem.mp hk),
        ih (earlier ++ [k]) (normalize_keyword k :: seen) hnext]
      rfl
    · simp only [schemaKeywordDupScan, dup_spec_go, if_neg hk,
        if_neg (fun hh => hk (hmem.mpr hh)),
        ih (earlier ++ [k]) (normalize_keyword k :: seen) hnext]
      rfl

theorem validatorKeywordDupScan_eq_dup_spec_go (ks : List String) :
    ∀ (earlier seen : List String),
      (∀ x, x ∈ seen ↔ x ∈ earlier.map normalize_keyword) →
      validatorKeywordDupScan seen ks = dup_spec_go earlier ks := by
  induction ks with
  | nil => intro earlier seen _; rfl
  | cons k rest ih =>
    intro earlier seen h
    have hmem := h (normalize_keyword k)
    by_cases hk : normalize_keyword k ∈ seen
    · have hstay : ∀ x, x ∈ seen ↔ x ∈ (earlier ++ [k]).map normalize_keyword := by
        intro x
        simp only [List.map_append, List.map_cons, List.map_nil, List.mem_append,
          List.mem_singleton, h x]
        constructor
        · exact fun hx => Or.inl hx
        · rintro (hx | rfl)
          · exact hx
          · exact hmem.mp hk
      simp only [validatorKeywordDupScan, dup_spec_go, if_pos hk, if_pos (hmem.mp hk),
        ih (earlier ++ [k]) seen hstay]
      rfl
    · have hnext : ∀ x, x ∈ normalize_keyword k :: seen ↔ x ∈ (earlier ++ [k]).map normalize_keyword := by
        intro x
        simp only [List.mem_cons, List.map_append, List.map_cons, List.map_nil,
          List.mem_append, List.mem_singleton, h x]
        tauto
      simp only [validatorKeywordDupScan, dup_spec_go, if_neg hk,
        if_neg (fun hh => hk (hmem.mpr hh)),
        ih (earlier ++ [k]) (normalize_keyword k :: seen) hnext]
      rfl

/-! ## Concrete campaigns used by witnesses and counterexamples -/

/-- A fully-populated draft campaign used as the base of concrete instances. -/
def draftCampaign : Campaign :=
  { id := "11111111-1111-1111-1111-111111111111", owner_id := some "user-1",
    name := "Spring Sale", objective := "SALES", campaign_type := "DEMAND_GEN",
    daily_budget := 5000000, start_date := some 20301231, end_date := none,
    bidding_strategy := none, target_cpa := none, target_roas := none,
    status := "DRAFT", google_campaign_id := none, google_ad_group_id := none,
    google_ad_id := none, ad_group_name := none, ad_headline := none,
    ad_description := none, asset_url := none, final_url := none,
    headlines := none, long_headline := none, descriptions := none,
    business_name := none, images := none, keywords := none, video_url := none,
    merchant_center_id := none, created_at := 20250101 }

/-- A SEARCH campaign whose keyword list collides after normalization. -/
def searchKeywordCampaign : Campaign :=
  { draftCampaign with campaign_type := "SEARCH", keywords := some ["a", "A", " a "] }

/-- C1: for every SEARCH campaign and every keyword list, both keyword
checks (the schema pass block and `validate_keyword_uniqueness`) emit
exactly one duplicate error, citing the original un-normalized text, per
second-or-later occurrence of a trimmed lower-cased keyword value, and never
flag a first occurrence; `['a','A',' a ']` yields exactly the two errors for
`'A'` and `' a '`, and `['a','b','c']` yields none. -/
theorem keyword_uniqueness_flags_exactly_normalized_repeats :
    (∀ ko : Option (List String),
        validate_keyword_uniqueness ko = duplicate_keyword_spec (ko.getD []))
    ∧ (∀ (c : Campaign) (ks : List String),
        c.campaign_type = "SEARCH" → c.keywords = some ks →
        schema_keyword_errors c =
          (if ks.isEmpty then [keywordsRequiredMsg "SEARCH"] else []) ++
          duplicate_keyword_spec ks)
    ∧ duplicate_keyword_spec ["a", "A", " a "] = [duplicateKeywordMsg "A", duplicateKeywordMsg " a "]
    ∧ duplicate_keyword_spec ["a", "b", "c"] = [] := by
  refine ⟨?_, ?_, by decide, by decide⟩
  · intro ko
    unfold validate_keyword_uniqueness duplicate_keyword_spec
    by_cases hk : (ko.getD []).isEmpty
    · rw [if_pos hk, List.isEmpty_iff.mp hk]; rfl
    · rw [if_neg hk]
      exact validatorKeywordDupScan_eq_dup_spec_go (ko.getD []) [] [] (by simp)
  · intro c ks htype hks
    simp only [schema_keyword_errors, htype, hks, CAMPAIGN_TYPE_REQUIREMENTS,
      Option.getD_some, Bool.true_and]
    by_cases hks0 : ks.isEmpty
    · rw [List.isEmpty_iff.mp hks0]
      simp [duplicate_keyword_spec, dup_spec_go]
    · simp only [hks0, Bool.not_false, if_neg (by simp [hks0] : ¬ (ks.isEmpty = true)), if_true,
        duplicate_keyword_spec]
      rw [schemaKeywordDupScan_eq_dup_spec_go ks [] [] (by simp)]

/-- Witness for C1: the SEARCH campaign with keywords `['a','A',' a ']`
receives exactly the two duplicate errors from the schema keyword block, and
`validate_keyword_uniqueness` flags the same list identically. -/
theorem keyword_uniqueness_witness :
    schema_keyword_errors searchKeywordCampaign =
        [duplicateKeywordMsg "A", duplicateKeywordMsg " a "]
    ∧ validate_keyword_uniqueness (some ["a", "b", "c"]) = [] := by
  constructor
  · have h := keyword_uniqueness_flags_exactly_normalized_repeats.2.1
      searchKeywordCampaign ["a", "A", " a "] rfl rfl
    rw [h]; decide
  · rw [keyword_uniqueness_flags_exactly_normalized_repeats.1 (some ["a", "b", "c"])]
    decide

/-- A campaign in `PUBLISHED` status whose `google_campaign_id` is non-null
but the empty string (the column is a nullable string with no emptiness
constraint). -/
def emptyLinkageCampaign : Campaign :=
  { draftCampaign with status := "PUBLISHED", google_campaign_id := some "" }

/-- Counterexample to C2 as stated: this campaign's `google_campaign_id` is
non-null, yet `delete_campaign` deletes it without raising, because the
guard is Python truthiness (`if campaign.google_campaign_id:`) and the empty
string is falsy. -/
theorem delete_campaign_nonnull_counterexample :
    emptyLinkageCampaign.google_campaign_id ≠ none
    ∧ CampaignService.delete_campaign (some emptyLinkageCampaign) = .ok true := by
  constructor
  · decide
  · rfl

/-- C2 (amended): an existing campaign is refused deletion (with the
published-campaign error, its record intact) exactly when its
`google_campaign_id` is truthy, i.e. non-null and non-empty — independent of
the `status` field; it is deleted exactly when `google_campaign_id` is null
or the empty string. -/
theorem delete_campaign_guard (c : Campaign) :
    (CampaignService.delete_campaign (some c) = .error cannotDeleteMsg
      ↔ pyTruthyStr c.google_campaign_id = true)
    ∧ (CampaignService.delete_campaign (some c) = .ok true
      ↔ pyTruthyStr c.google_campaign_id = false) := by
  cases h : pyTruthyStr c.google_campaign_id <;>
    simp [CampaignService.delete_campaign, h]

/-- A complete, fully-valid campaign that has already been published. -/
def publishedCampaign : Campaign :=
  { draftCampaign with
    campaign_type := "SEARCH", status := "PUBLISHED",
    google_campaign_id := some "987654321",
    headlines := some ["Buy now", "Great deals", "Shop today"],
    descriptions := some ["Save big on everything.", "Limited time offers."],
    keywords := some ["shoes", "boots"],
    final_url := some "https://example.com/sale" }

/-- C3: every campaign whose `status` field equals `PUBLISHED` fails
`CampaignService.validate_for_publish` with the already-published message,
for every evaluation date and independent of every other field. -/
theorem validate_for_publish_flags_published (today : Int) (c : Campaign)
    (h : c.status = "PUBLISHED") :
    alreadyPublishedMsg ∈ CampaignService.validate_for_publish today c := by
  unfold CampaignService.validate_for_publish
  rw [if_pos h]
  simp [List.mem_append]

/-- Witness for C3: the fully-complete published campaign above still fails
the gate. -/
theorem validate_for_publish_flags_published_witness :
    publishedCampaign.status = "PUBLISHED"
    ∧ alreadyPublishedMsg ∈ CampaignService.validate_for_publish 20250601 publishedCampaign :=
  ⟨rfl, validate_for_publish_flags_published 20250601 publishedCampaign rfl⟩

/-- C7: updating a `PUBLISHED` campaign with a patch containing any of
`objective`, `campaign_type`, `start_date` raises the restricted-field error
— the raise happens before any field is applied, so the pure result carries
no modified record; a patch containing none of those keys has exactly the
allow-listed fields applied. -/
theorem update_campaign_published_restrictions :
    (∀ (c : Campaign) (d : UpdateData), c.status = "PUBLISHED" →
        restricted_field_present d = true →
        CampaignService.update_campaign (some c) d =
          .error (cannotUpdateMsg (first_restricted_field d)))
    ∧ (∀ (c : Campaign) (d : UpdateData), restricted_field_present d = false →
        CampaignService.update_campaign (some c) d =
          .ok (some (apply_allowed_fields c d))) := by
  constructor
  · intro c d hs hr
    simp [CampaignService.update_campaign, hs, hr]
  · intro c d hr
    simp [CampaignService.update_campaign, hr]

/-- A patch that tries to change the campaign objective. -/
def objectivePatch : UpdateData := { emptyUpdate with objective := some "LEADS" }

/-- A patch that renames the campaign and tries to forge server-owned
fields (`status`, the Google linkage ids, `id`, `created_at`). -/
def forgingPatch : UpdateData :=
  { emptyUpdate with
    name := some "Renamed",
    status := some "PUBLISHED",
    google_campaign_id := some (some "999"),
    google_ad_group_id := some (some "888"),
    google_ad_id := some (some "777"),
    id := some "other-id",
    created_at := some 0 }

/-- Witness for C7: a published campaign rejects the objective patch, and
the forging patch (no restricted keys) is applied via the allow-list. -/
theorem update_campaign_published_restrictions_witness :
    publishedCampaign.status = "PUBLISHED"
    ∧ restricted_field_present objectivePatch = true
    ∧ CampaignService.update_campaign (some publishedCampaign) objectivePatch =
        .error (cannotUpdateMsg "objective")
    ∧ restricted_field_present forgingPatch = false
    ∧ CampaignService.update_campaign (some publishedCampaign) forgingPatch =
        .ok (some (apply_allowed_fields publishedCampaign forgingPatch)) := by
  refine ⟨rfl, rfl, ?_, rfl, ?_⟩
  · exact update_campaign_published_restrictions.1 publishedCampaign objectivePatch rfl rfl
  · exact update_campaign_published_restrictions.2 publishedCampaign forgingPatch rfl

/-- C10: any successful `update_campaign` leaves the campaign's `id`,
`status`, `created_at` and its three Google linkage fields unchanged,
whatever keys the patch contains — only allow-listed fields are ever
written. -/
theorem update_campaign_frame (c : Campaign) (d : UpdateData) (c2 : Campaign)
    (h : CampaignService.update_campaign (some c) d = .ok (some c2)) :
    c2.id = c.id ∧ c2.status = c.status ∧ c2.created_at = c.created_at
    ∧ c2.google_campaign_id = c.google_campaign_id
    ∧ c2.google_ad_group_id = c.google_ad_group_id
    ∧ c2.google_ad_id = c.google_ad_id := by
  simp only [CampaignService.update_campaign] at h
  by_cases hcond : c.status = "PUBLISHED" ∧ restricted_field_present d = true
  · rw [if_pos hcond] at h
    exact absurd h (by simp)
  · rw [if_neg hcond] at h
    simp only [Except.ok.injEq, Option.some.injEq] at h
    subst h
    exact ⟨rfl, rfl, rfl, rfl, rfl, rfl⟩

/-- Witness for C10: applying the forging patch to the draft campaign
succeeds but changes none of the server-owned fields. -/
theorem update_campaign_frame_witness :
    CampaignService.update_campaign (some draftCampaign) forgingPatch =
        .ok (some (apply_allowed_fields draftCampaign forgingPatch))
    ∧ ((apply_allowed_fields draftCampaign forgingPatch).id = draftCampaign.id
      ∧ (apply_allowed_fields draftCampaign forgingPatch).status = draftCampaign.status
      ∧ (apply_allowed_fields draftCampaign forgingPatch).created_at = draftCampaign.created_at
      ∧ (apply_allowed_fields draftCampaign forgingPatch).google_campaign_id = draftCampaign.google_campaign_id
      ∧ (apply_allowed_fields draftCampaign forgingPatch).google_ad_group_id = draftCampaign.google_ad_group_id
      ∧ (apply_allowed_fields draftCampaign forgingPatch).google_ad_id = draftCampaign.google_ad_id) := by
  refine ⟨?_, ?_⟩
  · rfl
  · exact update_campaign_frame draftCampaign forgingPatch
      (apply_allowed_fields draftCampaign forgingPatch) rfl

/-- The six campaign types of the `CampaignType` enum
(`app/models/campaign.py`). -/
def campaign_type_names : List String :=
  ["DEMAND_GEN", "SEARCH", "DISPLAY", "VIDEO", "SHOPPING", "PERFORMANCE_MAX"]

/-- Spec-side comparison for C5: when the pre-publish catalog defines
headline thresholds for a type, the dry-validate limits table carries the
same minimum count, maximum count and maximum length. -/
def headline_thresholds_agree (req : Option CountReq) (l : TypeLimits) : Bool :=
  match req with
  | none => true
  | some hr =>
    decide (l.min_headlines = some hr.min) &&
    decide (l.max_headlines = some hr.max) &&
    decide (l.headline = some hr.max_length)

/-- Spec-side comparison for C5, description side. -/
def description_thresholds_agree (req : Option CountReq) (l : TypeLimits) : Bool :=
  match req with
  | none => true
  | some dr =>
    decide (l.min_descriptions = some dr.min) &&
    decide (l.max_descriptions = some dr.max) &&
    decide (l.description = some dr.max_length)

/-- Spec-side comparison for C5, short-description bound. -/
def short_description_thresholds_agree (req : Option Nat) (l : TypeLimits) : Bool :=
  match req with
  | none => true
  | some n => decide (l.short_description = some n)

/-- C5: for every campaign type, every numeric threshold encoded in the
pre-publish pass's `CAMPAIGN_TYPE_REQUIREMENTS` (headline min/max/max-length,
description min/max/max-length, short-description bound) equals the
corresponding threshold of the dry-validate pass's `GOOGLE_ADS_LIMITS`. -/
theorem threshold_tables_agree (t : String) (ht : t ∈ campaign_type_names) :
    ∃ l, GOOGLE_ADS_LIMITS t = some l
      ∧ headline_thresholds_agree (CAMPAIGN_TYPE_REQUIREMENTS t).headlines l = true
      ∧ description_thresholds_agree (CAMPAIGN_TYPE_REQUIREMENTS t).descriptions l = true
      ∧ short_description_thresholds_agree (CAMPAIGN_TYPE_REQUIREMENTS t).short_description_max_length l = true := by
  fin_cases ht
  · exact ⟨demandGenLimits, rfl, rfl, rfl, rfl⟩
  · exact ⟨searchLimits, rfl, rfl, rfl, rfl⟩
  · exact ⟨displayLimits, rfl, rfl, rfl, rfl⟩
  · exact ⟨videoLimits, rfl, rfl, rfl, rfl⟩
  · exact ⟨shoppingLimits, rfl, rfl, rfl, rfl⟩
  · exact ⟨performanceMaxLimits, rfl, rfl, rfl, rfl⟩

/-- Witness for C5 at the `PERFORMANCE_MAX` type (the type carrying the
60-character short-description bound in both tables). -/
theorem threshold_tables_agree_witness :
    "PERFORMANCE_MAX" ∈ campaign_type_names
    ∧ ∃ l, GOOGLE_ADS_LIMITS "PERFORMANCE_MAX" = some l
      ∧ headline_thresholds_agree (CAMPAIGN_TYPE_REQUIREMENTS "PERFORMANCE_MAX").headlines l = true
      ∧ description_thresholds_agree (CAMPAIGN_TYPE_REQUIREMENTS "PERFORMANCE_MAX").descriptions l = true
      ∧ short_description_thresholds_agree (CAMPAIGN_TYPE_REQUIREMENTS "PERFORMANCE_MAX").short_description_max_length l = true :=
  ⟨by decide, threshold_tables_agree "PERFORMANCE_MAX" (by decide)⟩

/-- C6: the responsive-search-ad step checks its minimums before creating
any ad: fewer than 3 headlines yields the headline-minimum error; fewer than
2 descriptions yields an error naming the violated minimum (the headline one
when that is also violated, the description one otherwise); and the SEARCH
branch of the ad-dispatch therefore always errors for a SEARCH campaign with
exactly 2 headlines, independent of the validation engine. -/
theorem rsa_minimums_enforced :
    (∀ (hs ds : List String) (url : String) (p1 p2 : Option String),
        hs.length < 3 →
        create_responsive_search_ad hs ds url p1 p2 = .error (rsaHeadlinesErrorMsg hs.length))
    ∧ (∀ (hs ds : List String) (url : String) (p1 p2 : Option String),
        ds.length < 2 →
        create_responsive_search_ad hs ds url p1 p2 =
          .error (if hs.length < 3 then rsaHeadlinesErrorMsg hs.length
                  else rsaDescriptionsErrorMsg ds.length))
    ∧ (∀ (c : Campaign) (hs : List String),
        c.campaign_type = "SEARCH" → c.headlines = some hs → hs.length = 2 →
        create_ad_by_type_search c = .error (rsaHeadlinesErrorMsg 2)) := by
  have part1 : ∀ (hs ds : List String) (url : String) (p1 p2 : Option String),
      hs.length < 3 →
      create_responsive_search_ad hs ds url p1 p2 = .error (rsaHeadlinesErrorMsg hs.length) := by
    intro hs ds url p1 p2 h
    simp [create_responsive_search_ad, h]
  refine ⟨part1, ?_, ?_⟩
  · intro hs ds url p1 p2 h
    by_cases hh : hs.length < 3
    · simp [create_responsive_search_ad, hh, h]
    · simp [create_responsive_search_ad, hh, h]
  · intro c hs htype hhs hlen
    have hne : hs ≠ [] := by
      intro h0
      rw [h0] at hlen
      exact absurd hlen (by decide)
    unfold create_ad_by_type_search
    rw [hhs]
    simp only [pyOrList, if_neg hne]
    rw [show (2 : Nat) = hs.length from hlen.symm]
    exact part1 hs _ _ none none (by omega)

/-- A SEARCH campaign carrying only 2 headlines (validation bypassed). -/
def twoHeadlineSearchCampaign : Campaign :=
  { draftCampaign with
    campaign_type := "SEARCH",
    headlines := some ["First headline", "Second headline"],
    descriptions := some ["A description.", "Another description."],
    final_url := some "https://example.com" }

/-- Witness for C6: publishing the 2-headline SEARCH campaign errors out of
the responsive-search-ad step, and a 1-description list errors naming the
description minimum. -/
theorem rsa_minimums_enforced_witness :
    twoHeadlineSearchCampaign.campaign_type = "SEARCH"
    ∧ twoHeadlineSearchCampaign.headlines = some ["First headline", "Second headline"]
    ∧ create_ad_by_type_search twoHeadlineSearchCampaign = .error (rsaHeadlinesErrorMsg 2)
    ∧ create_responsive_search_ad ["h1", "h2", "h3"] ["only one"] "https://example.com" none none
        = .error (rsaDescriptionsErrorMsg 1) := by
  refine ⟨rfl, rfl, ?_, ?_⟩
  · exact rsa_minimums_enforced.2.2 twoHeadlineSearchCampaign
      ["First headline", "Second headline"] rfl rfl rfl
  · have h := rsa_minimums_enforced.2.1 ["h1", "h2", "h3"] ["only one"]
      "https://example.com" none none (by decide)
    simpa using h

/-- C8: the bidding-strategy encoding is total — a missing strategy takes
the per-type default (DEMAND_GEN/PERFORMANCE_MAX maximize conversions,
SEARCH/DISPLAY manual CPC, VIDEO target CPM, SHOPPING maximize clicks);
each of the nine enumerated strategies has an encoding branch, with
`target_cpa` carrying the campaign's value (positive per the data model) or
the fixed 1,000,000-micro fallback when unset, and `target_roas` carrying
the campaign's value or the 1.0 fallback when unset; any other non-empty
strategy string falls back to manual CPC. -/
theorem bidding_strategy_encoding_total :
    (∀ (cpa : Option Int) (roas : Option Rat),
        set_bidding_strategy "DEMAND_GEN" none cpa roas = .maximize_conversions 0
        ∧ set_bidding_strategy "PERFORMANCE_MAX" none cpa roas = .maximize_conversions 0
        ∧ set_bidding_strategy "SEARCH" none cpa roas = .manual_cpc false
        ∧ set_bidding_strategy "DISPLAY" none cpa roas = .manual_cpc false
        ∧ set_bidding_strategy "VIDEO" none cpa roas = .target_cpm 1 "WEEKLY"
        ∧ set_bidding_strategy "SHOPPING" none cpa roas = .target_spend 0)
    ∧ (∀ (t : String) (cpa : Option Int) (roas : Option Rat),
        set_bidding_strategy t (some "maximize_conversions") cpa roas = .maximize_conversions 0
        ∧ set_bidding_strategy t (some "maximize_conversion_value") cpa roas = .maximize_conversion_value 0
        ∧ set_bidding_strategy t (some "maximize_clicks") cpa roas = .target_spend 0
        ∧ set_bidding_strategy t (some "manual_cpc") cpa roas = .manual_cpc false
        ∧ set_bidding_strategy t (some "target_cpc") cpa roas = .manual_cpc false
        ∧ set_bidding_strategy t (some "manual_cpm") cpa roas = .manual_cpm
        ∧ set_bidding_strategy t (some "target_cpm") cpa roas = .target_cpm 1 "WEEKLY")
    ∧ (∀ (t : String) (roas : Option Rat) (v : Int), 0 < v →
        set_bidding_strategy t (some "target_cpa") (some v) roas = .target_cpa v)
    ∧ (∀ (t : String) (roas : Option Rat),
        set_bidding_strategy t (some "target_cpa") none roas = .target_cpa 1000000)
    ∧ (∀ (t : String) (cpa : Option Int) (q : Rat), 0 < q →
        set_bidding_strategy t (some "target_roas") cpa (some q) = .target_roas q)
    ∧ (∀ (t : String) (cpa : Option Int),
        set_bidding_strategy t (some "target_roas") cpa none = .target_roas 1)
    ∧ (∀ (t s : String) (cpa : Option Int) (roas : Option Rat),
        s ≠ "" → s ∉ ALL_BIDDING_STRATEGIES →
        set_bidding_strategy t (some s) cpa roas = .manual_cpc false) := by
  refine ⟨?_, ?_, ?_, ?_, ?_, ?_, ?_⟩
  · intro cpa roas
    exact ⟨rfl, rfl, rfl, rfl, rfl, rfl⟩
  · intro t cpa roas
    exact ⟨rfl, rfl, rfl, rfl, rfl, rfl, rfl⟩
  · intro t roas v hv
    have hne : v ≠ 0 := by omega
    simp [set_bidding_strategy, pyTruthyStr, pyTruthyInt, hne]
  · intro t roas
    rfl
  · intro t cpa q hq
    have hne : q ≠ 0 := ne_of_gt hq
    simp [set_bidding_strategy, pyTruthyStr, pyTruthyRat, hne]
  · intro t cpa
    rfl
  · intro t s cpa roas hne hmem
    simp only [ALL_BIDDING_STRATEGIES, List.mem_cons, List.mem_singleton, not_or] at hmem
    obtain ⟨h1, h2, h3, h4, h5, h6, h7, h8, h9⟩ := hmem
    simp [set_bidding_strategy, pyTruthyStr, hne, h1, h2, h3, h4, h5, h6, h7, h8, h9]

/-- Witness for C8 at concrete inputs: a positive target CPA is carried
through, and an unrecognized strategy string falls back to manual CPC. -/
theorem bidding_strategy_encoding_total_witness :
    set_bidding_strategy "SEARCH" (some "target_cpa") (some 2500000) none = .target_cpa 2500000
    ∧ set_bidding_strategy "SHOPPING" (some "target_roas") none (some 3) = .target_roas 3
    ∧ set_bidding_strategy "SEARCH" (some "bogus_strategy") none none = .manual_cpc false := by
  refine ⟨?_, ?_, ?_⟩
  · exact bidding_strategy_encoding_total.2.2.1 "SEARCH" none 2500000 (by decide)
  · exact bidding_strategy_encoding_total.2.2.2.2.1 "SHOPPING" none 3 (by decide)
  · exact bidding_strategy_encoding_total.2.2.2.2.2.2 "SEARCH" "bogus_strategy" none none
      (by decide) (by decide)

/-- C4: a PERFORMANCE_MAX campaign whose description list is non-empty and
contains no description of 60 characters or fewer receives the
60-character short-description error from both validation passes; a
campaign with no descriptions is not flagged by this rule in either pass. -/
theorem pmax_short_description_both_passes :
    (∀ (c : Campaign) (ds : List String),
        c.campaign_type = "PERFORMANCE_MAX" → c.descriptions = some ds → ds ≠ [] →
        (∀ d ∈ ds, 60 < d.length) →
        schemaShortDescriptionMsg "PERFORMANCE_MAX" 60 ∈ validate_campaign_for_publish c
        ∧ pmaxShortDescriptionMsg 60 ∈ (validate_campaign_for_google_ads c).errors)
    ∧ (∀ c : Campaign, c.campaign_type = "PERFORMANCE_MAX" → c.descriptions.getD [] = [] →
        schema_short_description_errors c = []
        ∧ validate_pmax_short_description c.descriptions = []) := by
  constructor
  · intro c ds htype hds hne hlong
    have hany : ds.any (fun d => decide (d.length ≤ 60)) = false := by
      rw [List.any_eq_false]
      intro d hd
      simp only [decide_eq_true_eq, not_le]
      exact hlong d hd
    have hblock : schema_short_description_errors c =
        [schemaShortDescriptionMsg "PERFORMANCE_MAX" 60] := by
      simp [schema_short_description_errors, htype, hds, CAMPAIGN_TYPE_REQUIREMENTS,
        emptyRequirements, List.isEmpty_iff, hne, hany]
    have hvshort : validate_pmax_short_description c.descriptions =
        [pmaxShortDescriptionMsg 60] := by
      simp [validate_pmax_short_description, hds, List.isEmpty_iff, hne, hany,
        performanceMaxLimits]
    constructor
    · have hm : schemaShortDescriptionMsg "PERFORMANCE_MAX" 60 ∈ schema_short_description_errors c := by
        rw [hblock]
        exact List.mem_singleton_self _
      simp only [validate_campaign_for_publish, List.mem_append]
      tauto
    · have hm : pmaxShortDescriptionMsg 60 ∈ validate_pmax_short_description c.descriptions := by
        rw [hvshort]
        exact List.mem_singleton_self _
      simp only [validate_campaign_for_google_ads, htype, List.mem_append]
      simp only [show ("PERFORMANCE_MAX" = "SEARCH") = False by simp, if_false, if_true,
        List.mem_append]
      tauto
  · intro c htype hds
    constructor
    · simp [schema_short_description_errors, htype, CAMPAIGN_TYPE_REQUIREMENTS,
        emptyRequirements, hds, List.isEmpty_iff]
    · simp [validate_pmax_short_description, hds, List.isEmpty_iff]

/-- An 80-character description. -/
def desc80 : String := String.mk (List.replicate 80 (Char.ofNat 120))

/-- A PERFORMANCE_MAX campaign whose only description is 80 characters. -/
def pmax80Campaign : Campaign :=
  { draftCampaign with campaign_type := "PERFORMANCE_MAX", descriptions := some [desc80] }

/-- Witness for C4: the campaign whose only description is 80 characters
long receives the 60-character short-description message from both passes. -/
theorem pmax_short_description_both_passes_witness :
    pmax80Campaign.campaign_type = "PERFORMANCE_MAX"
    ∧ desc80.length = 80
    ∧ schemaShortDescriptionMsg "PERFORMANCE_MAX" 60 ∈ validate_campaign_for_publish pmax80Campaign
    ∧ pmaxShortDescriptionMsg 60 ∈ (validate_campaign_for_google_ads pmax80Campaign).errors := by
  refine ⟨rfl, by decide, ?_, ?_⟩
  · exact (pmax_short_description_both_passes.1 pmax80Campaign [desc80] rfl rfl
      (by decide) (by decide)).1
  · exact (pmax_short_description_both_passes.1 pmax80Campaign [desc80] rfl rfl
      (by decide) (by decide)).2

/-- A PERFORMANCE_MAX campaign with one headline and one description, the
failing input for C9. -/
def pmaxPaddingCampaign : Campaign :=
  { draftCampaign with
    campaign_type := "PERFORMANCE_MAX",
    headlines := some ["Only headline"],
    descriptions := some ["Solo description"] }

/-- C9 evaluated at the failing input: the publishing translator pads the
campaign record's own headline and description lists in place (via the
Python list aliasing in `_create_text_assets_for_pmax`), so the record that
comes back differs from the one passed in — contradicting the claim that
the translator never modifies the record. -/
theorem publish_campaign_mutates_pmax_record :
    (publish_campaign_record_effect pmaxPaddingCampaign).headlines =
        some ["Only headline", "Discover More 2", "Discover More 3"]
    ∧ (publish_campaign_record_effect pmaxPaddingCampaign).descriptions =
        some ["Solo description", "Visit our website for more information."]
    ∧ publish_campaign_record_effect pmaxPaddingCampaign ≠ pmaxPaddingCampaign := by
  refine ⟨by decide, by decide, by decide⟩
